import Mathlib

/-!
# Verification of the processor-cad dual-representation object engine

Shallow embedding of the two engine modules of the repository:

* `AICAD` — `src/src/services/AICADEngine.ts` (class `AICADEngine`): the
  three.js + cannon-es engine with pointer dragging, a bounce action that
  rewrites contact materials, and a fixed-timestep loop
  `world.step(1/60, delta, 3)`.
* `NLCAD` — `src/unnamed/part_003` (class `NaturalLanguageCADService`):
  the second engine, with `executeAction` over a `bodies` map and a
  variable-timestep loop `world.step(delta)`.

Numbers are embedded as rationals (`ℚ`); the mass-from-density formula of
the natural-language parser, which involves `Math.PI`, is embedded over
`ℝ`.  The physics library (cannon-es) is external to the repository: the
parts of it the engine code relies on (material identity, `applyImpulse`,
`World.step`'s fixed-substep accumulator, the `Sphere` constructor's
negative-radius check) are embedded from the library's documented,
version-pinned behaviour and noted at each definition.
-/

/-- Vector of 3 rational coordinates with rational coordinates (embeds `THREE.Vector3` /
`CANNON.Vec3` coordinate triples; the floating-point representation is
abstracted to exact rationals). -/
structure Vec3 where
  x : ℚ
  y : ℚ
  z : ℚ
  deriving DecidableEq, Repr

namespace Vec3

def add (a b : Vec3) : Vec3 := ⟨a.x + b.x, a.y + b.y, a.z + b.z⟩

def sub (a b : Vec3) : Vec3 := ⟨a.x - b.x, a.y - b.y, a.z - b.z⟩

def scale (a : Vec3) (k : ℚ) : Vec3 := ⟨a.x * k, a.y * k, a.z * k⟩

def zero : Vec3 := ⟨0, 0, 0⟩

end Vec3

/-- Quaternion with rational components (embeds `THREE.Quaternion` /
`CANNON.Quaternion`; only copied around by the code under verification,
never renormalised here). -/
structure Quat where
  qx : ℚ
  qy : ℚ
  qz : ℚ
  qw : ℚ
  deriving DecidableEq, Repr

/-- Identity quaternion, the default orientation of a fresh body. -/
def Quat.ident : Quat := ⟨0, 0, 0, 1⟩

/-- JavaScript `a || d` on an optional numeric field: `undefined` and `0`
are falsy, so both select the default (`NaN` does not arise over `ℚ`).
This is the semantics of defaults such as `params.radius || 0.6`. -/
def jsOrQ (v : Option ℚ) (d : ℚ) : ℚ :=
  match v with
  | none => d
  | some x => if x = 0 then d else x

/-- JavaScript `v || 0` on a number already known to be defined
(`(this.dragObject as any).lockedZ || 0`): `0` is falsy and maps to the
default `0`, every other value maps to itself. -/
def jsOrZero (v : ℚ) : ℚ := if v = 0 then 0 else v

/-- JavaScript strict equality `===` between a number and a string is
always `false`: `===` never equates values of different runtime types.
`AICADEngine.applyPhysics` compares `cm.materials[i].id` — a *number* in
cannon-es (`Material` sets `this.id = Material.idCounter++`; the string
passed to the constructor goes to `this.name`) — against the string
literals `object` and `bouncy`. -/
def jsNumEqString (_n : ℕ) (_s : String) : Bool := false

/-- cannon-es `Material`: a numeric identity `mid` (the library's
`id = Material.idCounter++`) and the constructor-supplied string `name`. -/
structure Material where
  mid : ℕ
  name : String
  deriving DecidableEq, Repr

/-- cannon-es `ContactMaterial`: an ordered pair of materials (the
library stores `materials = [m1, m2]`) with restitution and friction. -/
structure ContactMaterial where
  m1 : Material
  m2 : Material
  restitution : ℚ
  friction : ℚ
  deriving DecidableEq, Repr

/-- Does contact material `cm` pair the two material *names* `a` and `b`,
in either order?  (The spec's "unordered pair of material tags".) -/
def ContactMaterial.pairsNames (cm : ContactMaterial) (a b : String) : Bool :=
  (cm.m1.name = a ∧ cm.m2.name = b) ∨ (cm.m1.name = b ∧ cm.m2.name = a)

/-- cannon-es `Body.type`: `DYNAMIC`, `KINEMATIC` or `STATIC`. -/
inductive BodyType where
  | dynamic
  | kinematic
  | static
  deriving DecidableEq, Repr

/-- Collision shape, as built by the two `createObject` functions.
`CANNON.Box` takes half-extents and performs no validation;
`CANNON.Sphere` rejects a negative radius (modelled at the call sites). -/
inductive Shape where
  | sphere (radius : ℚ)
  | box (halfX halfY halfZ : ℚ)
  | plane
  deriving DecidableEq, Repr

/-- cannon-es rigid body, restricted to the state the engine code reads
and writes: pose, linear velocity, mass, body type, material, shape.
(Angular velocity, accumulated force/torque and inertia are never
inspected by the claims under verification and are omitted.) -/
structure Body where
  mass : ℚ
  position : Vec3
  velocity : Vec3
  quaternion : Quat
  btype : BodyType
  material : Option Material
  shape : Shape
  deriving DecidableEq, Repr

/-- Inverse mass as cannon-es computes it (`invMass = mass > 0 ? 1/mass : 0`). -/
def Body.invMass (b : Body) : ℚ := if b.mass > 0 then 1 / b.mass else 0

/-- cannon-es `Body.applyImpulse(impulse, relativePoint)`, linear part:
for a `DYNAMIC` body, `velocity += impulse * invMass`; kinematic and
static bodies ignore impulses (`if (this.type !== Body.DYNAMIC) return`).
The engines pass `body.position` as the relative point; the resulting
rotational term touches only the angular state, which is not modelled. -/
def Body.applyImpulse (b : Body) (impulse : Vec3) : Body :=
  match b.btype with
  | .dynamic => { b with velocity := b.velocity.add (impulse.scale b.invMass) }
  | _ => b

/-- The physics world state the engine code manipulates: gravity, the
default contact material's restitution, the `contactMaterials` array and
the `bodies` array (`bodies[0]` is the ground added by the constructor). -/
structure World where
  gravity : Vec3
  defaultRestitution : ℚ
  contactMaterials : List ContactMaterial
  bodies : List Body
  deriving DecidableEq, Repr

/-- Visual (three.js) half of an object: mesh position and orientation. -/
structure MeshState where
  position : Vec3
  quaternion : Quat
  deriving DecidableEq, Repr

namespace AICAD

/-- Record `CADObject3D` of `AICADEngine.ts`, restricted to the fields the
verified code paths read and write.  The `animations` closures are
modelled separately (`bounceAnimationTick`); `properties` is untouched
by the claims. -/
structure CADObject3D where
  oid : String
  mesh : MeshState
  body : Body
  isDraggable : Bool
  isDragging : Bool
  dragOffset : Vec3
  deriving DecidableEq, Repr

/-- State of `AICADEngine`: the physics world, the insertion-ordered
`objects` map (embedded as an association list, JavaScript `Map`
preserves insertion order), and the global `Material.idCounter` of the
physics library, threaded to give each `new CANNON.Material(...)` a
fresh numeric id. -/
structure Engine where
  world : World
  objects : List CADObject3D
  materialCounter : ℕ
  objectCounter : ℕ
  deriving DecidableEq, Repr

/-- The ground material `new CANNON.Material(`ground`)` created by the
constructor (first material, id 0). -/
def groundMaterial : Material := ⟨0, "ground"⟩

/-- The static ground body added by the `AICADEngine` constructor:
mass 0 (hence `STATIC` in cannon-es), an infinite plane at `y = -0.5`
(its tilt quaternion is orientation-only and kept at identity here,
no verified path reads it). -/
def groundBody : Body :=
  { mass := 0
    position := ⟨0, -1/2, 0⟩
    velocity := Vec3.zero
    quaternion := Quat.ident
    btype := .static
    material := some groundMaterial
    shape := .plane }

/-- Engine state after the `AICADEngine` constructor: gravity
`(0, -9.82, 0)`, `defaultContactMaterial.restitution = 0`, an empty
`contactMaterials` array, and the ground as `world.bodies[0]`. -/
def engine0 : Engine :=
  { world :=
      { gravity := ⟨0, -491/50, 0⟩
        defaultRestitution := 0
        contactMaterials := []
        bodies := [groundBody] }
    objects := []
    materialCounter := 1
    objectCounter := 0 }

/-- Parameters of a `create_object` command as `createObject(params)`
receives them from the interpreter.  Optional numeric fields model
possibly-absent JSON fields. -/
structure CreateParams where
  ctype : Option String
  radius : Option ℚ
  width : Option ℚ
  height : Option ℚ
  depth : Option ℚ
  mass : Option ℚ
  position : Option Vec3
  clearExisting : Bool
  deriving DecidableEq, Repr

/-- The only way `createObject` can fail: `new CANNON.Sphere(radius)`
throws when the radius is negative ("The sphere radius cannot be
negative."), before anything is added to the scene, the world or the
objects map.  There is no geometry validation in the engine itself. -/
inductive CreateError where
  | sphereRadiusNegative
  deriving DecidableEq, Repr

/-- Method `removeAllObjects()`: removes every object's body from the world and
clears the objects map.  (It does *not* touch `contactMaterials`.) -/
def removeAllObjects (e : Engine) : Engine :=
  { e with
    world := { e.world with
      bodies := e.world.bodies.filter (fun b => decide (∀ o ∈ e.objects, o.body ≠ b)) }
    objects := [] }

/-- The shape `createObject` builds from `params`: sphere radius
`params.radius || 0.6`; box dimensions `params.width || 0.2` etc. with
half-extents `w/2, h/2, d/2`; any other (or missing) type falls through
to a default sphere of radius 0.1.  Returns an error exactly when the
sphere constructor of the physics library throws (negative radius). -/
def buildShape (params : CreateParams) : Except CreateError Shape :=
  match params.ctype with
  | some "sphere" =>
      let radius := jsOrQ params.radius (3/5)
      if radius < 0 then .error .sphereRadiusNegative else .ok (.sphere radius)
  | some "box" =>
      let width := jsOrQ params.width (1/5)
      let height := jsOrQ params.height (1/5)
      let depth := jsOrQ params.depth (1/5)
      .ok (.box (width/2) (height/2) (depth/2))
  | _ =>
      .ok (.sphere (1/10))

/-- Method `AICADEngine.createObject(params)` (lines 356–447): optionally clear
the scene (`params.clearExisting && objects.size > 0`), build the shape
(no dimension validation; zero dimensions are falsy and replaced by the
defaults), position `params.position || {x:0, y:0.2, z:0}`, mass
`params.mass || 1`, a fresh `new CANNON.Material(`object`)`, a contact
material against `world.bodies[0].material` with restitution 0 and
friction 0.4 pushed onto `contactMaterials`, then add body and object. -/
def createObject (params : CreateParams) (e0 : Engine) : Except CreateError Engine :=
  let e := if params.clearExisting ∧ e0.objects ≠ [] then removeAllObjects e0 else e0
  match buildShape params with
  | .error err => .error err
  | .ok shape =>
    let pos := params.position.getD ⟨0, 1/5, 0⟩
    let mass := jsOrQ params.mass 1
    let objectMaterial : Material := ⟨e.materialCounter, "object"⟩
    let body : Body :=
      { mass := mass
        position := pos
        velocity := Vec3.zero
        quaternion := Quat.ident
        btype := .dynamic
        material := some objectMaterial
        shape := shape }
    let groundMat := ((e.world.bodies.headD groundBody).material).getD groundMaterial
    let contactMaterial : ContactMaterial :=
      { m1 := objectMaterial, m2 := groundMat, restitution := 0, friction := 2/5 }
    let obj : CADObject3D :=
      { oid := "obj_" ++ toString e.objectCounter
        mesh := { position := pos, quaternion := Quat.ident }
        body := body
        isDraggable := true
        isDragging := false
        dragOffset := Vec3.zero }
    .ok { e with
          world := { e.world with
            contactMaterials := e.world.contactMaterials ++ [contactMaterial]
            bodies := e.world.bodies ++ [body] }
          objects := e.objects ++ [obj]
          materialCounter := e.materialCounter + 1
          objectCounter := e.objectCounter + 1 }

/-- Method `executeAICommand` wraps command execution in `try/catch`; a thrown
exception (the negative-radius throw happens before any insertion) is
reported as a chat message and leaves the engine state as it was. -/
def createObjectSafe (params : CreateParams) (e : Engine) : Engine :=
  match createObject params e with
  | .ok e' => e'
  | .error _ => e

end AICAD

namespace AICAD

/-- Parameters of an `apply_physics` bounce command: `params.restitution`
(default 0.8 via `||`), `params.initial_velocity` components (defaults
`x,z → 0`, `y → 5` via `?.` and `||`), and the `continuous` flag. -/
structure BounceParams where
  restitution : Option ℚ
  ivx : Option ℚ
  ivy : Option ℚ
  ivz : Option ℚ
  continuous : Bool
  deriving DecidableEq, Repr

/-- The keep-predicate of the `contactMaterials.filter` in
`applyPhysics` (lines 467–476).  The source compares the numeric
`materials[i].id` with the *strings* `object` and `bouncy` under `===`,
so each name test is `jsNumEqString` (constantly false), and compares
`materials[j]` with the ground material instance under `===` (reference
identity; materials carry unique numeric ids, so structural equality
coincides with it). -/
def keepEntry (groundMat : Material) (cm : ContactMaterial) : Bool :=
  !((jsNumEqString cm.m1.mid "object" || jsNumEqString cm.m1.mid "bouncy")
      && cm.m2 == groundMat)
  && !((jsNumEqString cm.m2.mid "object" || jsNumEqString cm.m2.mid "bouncy")
      && cm.m1 == groundMat)

/-- The initial bounce impulse built in `applyPhysics`:
`(iv?.x || 0, iv?.y || 5, iv?.z || 0)`. -/
def initialImpulse (p : BounceParams) : Vec3 :=
  ⟨jsOrQ p.ivx 0, jsOrQ p.ivy 5, jsOrQ p.ivz 0⟩

/-- One object's share of `applyPhysics` with type `bounce` (lines
453–502): give the body a fresh `new CANNON.Material(`bouncy`)`, build a
contact material against `world.bodies[0].material` with restitution
`params.restitution || 0.8` and friction 0.1, filter the world's
`contactMaterials` through `keepEntry`, push the new entry, and apply
the initial impulse at the body's position.  Returns the updated object
together with the updated world and material counter. -/
def bounceOne (p : BounceParams) (w : World) (counter : ℕ) (obj : CADObject3D) :
    CADObject3D × World × ℕ :=
  let bouncyMaterial : Material := ⟨counter, "bouncy"⟩
  let obj' := { obj with body := { obj.body with material := some bouncyMaterial } }
  let groundMat := ((w.bodies.headD groundBody).material).getD groundMaterial
  let bounceContactMaterial : ContactMaterial :=
    { m1 := bouncyMaterial, m2 := groundMat
      restitution := jsOrQ p.restitution (4/5), friction := 1/10 }
  let w' := { w with
    contactMaterials :=
      (w.contactMaterials.filter (keepEntry groundMat)) ++ [bounceContactMaterial] }
  let obj'' := { obj' with body := obj'.body.applyImpulse (initialImpulse p) }
  (obj'', w', counter + 1)

/-- Action `applyPhysics` with type `bounce` over the whole engine: the source
iterates `objects.forEach`, mutating the shared world as it goes. -/
def applyPhysicsBounce (p : BounceParams) (e : Engine) : Engine :=
  let step := fun (acc : List CADObject3D × World × ℕ) (obj : CADObject3D) =>
    let (done, w, c) := acc
    let (obj', w', c') := bounceOne p w c obj
    (done ++ [obj'], w', c')
  let (objs, w, c) := e.objects.foldl step ([], e.world, e.materialCounter)
  { e with objects := objs, world := w, materialCounter := c }

/-- The closure registered as the `bounce` animation when
`params.continuous` is set (lines 493–500): each tick, if the body is
below `-0.35` and its vertical speed is below `0.5`, re-apply the
upward impulse `(0, params.initial_velocity?.y || 5, 0)` at the body's
position; otherwise do nothing. -/
def bounceAnimationTick (p : BounceParams) (b : Body) : Body :=
  if b.position.y < -(7/20) ∧ |b.velocity.y| < 1/2 then
    b.applyImpulse ⟨0, jsOrQ p.ivy 5, 0⟩
  else
    b

/-- The per-object physics→visual synchronisation of the animation loop
(lines 608–613): unless the object is being dragged, copy the body's
position and quaternion onto the mesh. -/
def syncObj (obj : CADObject3D) : CADObject3D :=
  if obj.isDragging then obj
  else { obj with mesh := { position := obj.body.position, quaternion := obj.body.quaternion } }

/-- The sync pass over the whole `objects` map (the registered
animations run afterwards, on the already-synced objects). -/
def syncPass (objs : List CADObject3D) : List CADObject3D :=
  objs.map syncObj

/-- Clamp `Math.max(-maxRange, Math.min(maxRange, v))` with `maxRange = 10`. -/
def clampRange (v : ℚ) : ℚ := max (-10) (min 10 v)

/-- The drag target computed by `onMouseMove` while dragging (lines
269–281): `newPosition = intersection - dragOffset`, then
`newPosition.z = lockedZ || 0`, then clamp `x` and `y` to `[-10, 10]`
(`z` is not clamped: it is pinned to the locked depth). -/
def dragMoveTarget (intersection dragOffset : Vec3) (lockedZ : ℚ) : Vec3 :=
  let newPosition := intersection.sub dragOffset
  let p : Vec3 := ⟨newPosition.x, newPosition.y, jsOrZero lockedZ⟩
  ⟨clampRange p.x, clampRange p.y, p.z⟩

/-- Result of the ray-cast of a pointer-move against the drag plane:
either the intersection point, or no intersection (in which case the
handler leaves the object untouched). -/
inductive RayHit where
  | hit (point : Vec3)
  | miss
  deriving DecidableEq, Repr

/-- One pointer-move while in the dragging state (lines 269–285): on a
plane hit, write the drag target into both the mesh position and the
body position; on a miss, change nothing. -/
def onMouseMoveDrag (h : RayHit) (lockedZ : ℚ) (obj : CADObject3D) : CADObject3D :=
  match h with
  | .miss => obj
  | .hit intersection =>
      let target := dragMoveTarget intersection obj.dragOffset lockedZ
      { obj with
        mesh := { obj.mesh with position := target }
        body := { obj.body with position := target } }

/-- A whole drag: the fold of successive pointer-moves (each ray-cast
either hits the drag plane or misses) over the dragged object. -/
def dragTrace (lockedZ : ℚ) (events : List RayHit) (obj : CADObject3D) : CADObject3D :=
  events.foldl (fun o h => onMouseMoveDrag h lockedZ o) obj

/-- Handler `onMouseUp` acting on the dragged object (lines 299–304): when a
drag is in progress, set the body back to `DYNAMIC` and clear the
object's dragging flag; position and velocity are left untouched. -/
def onMouseUpObject (obj : CADObject3D) : CADObject3D :=
  { obj with
    body := { obj.body with btype := .dynamic }
    isDragging := false }

/-- Gravity integration of one fixed physics step for a single body
(cannon-es `World.internalStep`): a `DYNAMIC` body accumulates the
gravity force `m·g`, integrates `velocity += force·invMass·dt` and then
`position += velocity·dt` (semi-implicit Euler); kinematic and static
bodies receive no gravity, a kinematic body just advances along its own
velocity.  Contact resolution is the library's own concern (spec §1) and
is not modelled. -/
def gravityStep (gravity : Vec3) (dt : ℚ) (b : Body) : Body :=
  match b.btype with
  | .dynamic =>
      let v' := b.velocity.add (gravity.scale dt)
      { b with velocity := v', position := b.position.add (v'.scale dt) }
  | .kinematic =>
      { b with position := b.position.add (b.velocity.scale dt) }
  | .static => b

end AICAD

/-! ## The fixed-substep accumulator of `World.step`

cannon-es `World.step(dt, timeSinceLastCalled?, maxSubSteps)`:

* called with one argument (`NaturalLanguageCADService.startAnimation`:
  `this.world.step(deltaTime)`), it performs a *single* internal step of
  size `dt` — variable-size, one per frame;
* called with three arguments (`AICADEngine.startAnimation`:
  `this.world.step(1/60, delta, 3)`), it adds the elapsed wall time to an
  accumulator and, while the accumulator holds at least `dt` and fewer
  than `maxSubSteps` substeps have run, performs an internal step of size
  `dt` and subtracts `dt`; afterwards the accumulator is reduced modulo
  `dt`.  (The library may additionally bail out of the loop early on a
  wall-clock overrun; that only lowers the substep count and is not
  representable in a shallow embedding.)

Each step function below returns the list of internal-step sizes it
performs together with the new accumulator value, which is exactly what
the claims about the loops quantify over. -/

/-- The substep loop: structural recursion on the remaining substep
budget (`substeps < maxSubSteps`). -/
def fixedSubstepLoop : ℕ → ℚ → ℚ → List ℚ × ℚ
  | 0, _, acc => ([], acc)
  | budget + 1, dt, acc =>
      if dt ≤ acc then
        let (sizes, acc') := fixedSubstepLoop budget dt (acc - dt)
        (dt :: sizes, acc')
      else
        ([], acc)

/-- JavaScript `a % b` for nonnegative `a` and positive `b`:
`a - b * floor(a / b)`. -/
def ratMod (a b : ℚ) : ℚ := a - b * ⌊a / b⌋

/-- Call `World.step(dt, timeSinceLastCalled, maxSubSteps)` (fixed-substep
mode): accumulate, loop, reduce the accumulator modulo `dt`. -/
def cannonStepFixed (dt timeSinceLastCalled : ℚ) (maxSubSteps : ℕ) (acc : ℚ) :
    List ℚ × ℚ :=
  let (sizes, acc') := fixedSubstepLoop maxSubSteps dt (acc + timeSinceLastCalled)
  (sizes, ratMod acc' dt)

/-- Call `World.step(dt)` (single-argument mode): one internal step of size
`dt`, no accumulator. -/
def cannonStepSimple (dt : ℚ) : List ℚ := [dt]

namespace AICAD

/-- The physics advance of one `AICADEngine` animation frame (lines
602–605): `world.step(1/60, clock.getDelta(), 3)`. -/
def frameSubsteps (delta acc : ℚ) : List ℚ × ℚ :=
  cannonStepFixed (1/60) delta 3 acc

end AICAD

namespace NLCAD

/-- The physics advance of one `NaturalLanguageCADService` animation
frame (`startAnimation`: `this.world.step(deltaTime)`): a single
internal step whose size is the raw frame delta. -/
def frameSubsteps (delta : ℚ) : List ℚ :=
  cannonStepSimple delta

/-- State of `NaturalLanguageCADService` physics: the `bodies` map (an
association list from object id to body, JavaScript `Map` preserves
insertion order), the world's contact material array, and the library's
material id counter. -/
structure NLEngine where
  bodies : List (String × Body)
  contactMaterials : List ContactMaterial
  materialCounter : ℕ
  deriving DecidableEq, Repr

/-- Union `CADAction` of `part_003`: a discriminated action record with a
target id and the optional numeric payload fields. -/
inductive NLActionType where
  | set_restitution
  | apply_impulse
  | set_friction
  | apply_force
  | spawn
  | remove
  deriving DecidableEq, Repr

structure NLAction where
  atype : NLActionType
  target : String
  value : Option ℚ
  impulse_Ns : Option ℚ
  direction : Option Vec3
  force_N : Option ℚ
  deriving DecidableEq, Repr

/-- JavaScript truthiness of an optional numeric field
(`action.impulse_Ns && action.direction`): absent or zero is falsy. -/
def jsTruthyQ (v : Option ℚ) : Bool :=
  match v with
  | none => false
  | some x => x ≠ 0

/-- Result surfaced by `executeAction`: either the switch ran, or the
target id was missing from the `bodies` map and the handler warned
(`console.warn`) and returned without touching anything. -/
inductive NLExecResult where
  | ok
  | unknownTarget
  deriving DecidableEq, Repr

/-- The `apply_force` branch adds `direction * force_N` to the body's
force accumulator; the accumulator is not part of the modelled `Body`
state (no claim reads it), so the branch leaves the modelled state
unchanged apart from the body update being the identity. -/
def nlApplyForce (b : Body) : Body := b

/-- Method `NaturalLanguageCADService.executeAction(action)` (part_003 lines
1049–1101): look the target up in the `bodies` map; a missing target
warns and returns with nothing mutated.  `set_restitution` registers a
fresh `bouncy` material paired *with itself* (restitution
`action.value || 0.8`, friction 0.4) and assigns it to the body;
`apply_impulse` (when `impulse_Ns` is truthy and `direction` is
present) applies `direction * impulse_Ns` at the body's position;
`set_friction` assigns a fresh `friction` material; `apply_force`
accumulates a force; `spawn`/`remove` fall through the switch. -/
def executeAction (a : NLAction) (e : NLEngine) : NLExecResult × NLEngine :=
  match e.bodies.lookup a.target with
  | none => (.unknownTarget, e)
  | some body =>
    let write := fun (b : Body) (e' : NLEngine) =>
      { e' with bodies := e'.bodies.map (fun p => if p.1 = a.target then (p.1, b) else p) }
    match a.atype with
    | .set_restitution =>
        let material : Material := ⟨e.materialCounter, "bouncy"⟩
        let contactMaterial : ContactMaterial :=
          { m1 := material, m2 := material
            restitution := jsOrQ a.value (4/5), friction := 2/5 }
        let e' := { e with
          contactMaterials := e.contactMaterials ++ [contactMaterial]
          materialCounter := e.materialCounter + 1 }
        (.ok, write { body with material := some material } e')
    | .apply_impulse =>
        match a.direction with
        | some dir =>
            if jsTruthyQ a.impulse_Ns then
              let impulse := dir.scale (jsOrQ a.impulse_Ns 0)
              (.ok, write (body.applyImpulse impulse) e)
            else (.ok, e)
        | none => (.ok, e)
    | .set_friction =>
        let material : Material := ⟨e.materialCounter, "friction"⟩
        let e' := { e with materialCounter := e.materialCounter + 1 }
        (.ok, write { body with material := some material } e')
    | .apply_force =>
        match a.direction with
        | some _ =>
            if jsTruthyQ a.force_N then (.ok, write (nlApplyForce body) e)
            else (.ok, e)
        | none => (.ok, e)
    | .spawn => (.ok, e)
    | .remove => (.ok, e)

end NLCAD

/-! ## The natural-language parser's mass-from-density computation

`parseNaturalLanguage` (part_003 lines 808–817 and 860–867) builds the
sphere specification with
`volume = (4/3) * Math.PI * radius³` and `mass = density * volume`,
density fixed at 1200 kg/m³; `createObject` (part_003 line 1038) then
passes `obj.mass_kg` verbatim as the body's mass.  `Math.PI` forces this
corner of the embedding onto the reals. -/

/-- The `CADObject` numeric fields filled in by the parser's sphere
path. -/
structure ParsedSphere where
  radius_m : ℝ
  diameter_m : ℝ
  density_kg_m3 : ℝ
  volume_m3 : ℝ
  mass_kg : ℝ

/-- Constant `Math.PI`. -/
noncomputable def jsMathPI : ℝ := Real.pi

/-- The parser's sphere construction for a given radius:
`density_kg_m3 = 1200`, `volume_m3 = (4/3)·π·r³`,
`mass_kg = density · volume`. -/
noncomputable def parseSphere (r : ℝ) : ParsedSphere :=
  { radius_m := r
    diameter_m := 2 * r
    density_kg_m3 := 1200
    volume_m3 := (4/3) * jsMathPI * r ^ 3
    mass_kg := 1200 * ((4/3) * jsMathPI * r ^ 3) }

/-- The mass `NaturalLanguageCADService.createObject` gives the physics
body: `new CANNON.Body({ mass: obj.mass_kg, ... })`. -/
noncomputable def nlBodyMass (o : ParsedSphere) : ℝ := o.mass_kg

/-! ## Concrete scenarios used by counterexamples and witnesses -/

/-- Create a sphere of radius 0.06 m (the spec's end-to-end example),
incremental create. -/
def sphereCreateParams : AICAD.CreateParams :=
  { ctype := some "sphere", radius := some (3/50), width := none, height := none,
    depth := none, mass := none, position := none, clearExisting := false }

/-- A create request whose radius is 0 — a non-positive dimension. -/
def zeroRadiusParams : AICAD.CreateParams :=
  { ctype := some "sphere", radius := some 0, width := none, height := none,
    depth := none, mass := none, position := none, clearExisting := false }

/-- A create request with a negative radius. -/
def negRadiusParams : AICAD.CreateParams :=
  { ctype := some "sphere", radius := some (-1), width := none, height := none,
    depth := none, mass := none, position := none, clearExisting := false }

/-- The bounce action of the spec's end-to-end example
(`SetRestitution(id, 0.85)`), with continuous bouncing. -/
def bounceParams : AICAD.BounceParams :=
  { restitution := some (17/20), ivx := none, ivy := none, ivz := none,
    continuous := true }

/-- Engine after creating one sphere. -/
def engineAfterCreate : AICAD.Engine :=
  AICAD.createObjectSafe sphereCreateParams AICAD.engine0

/-- Engine after creating one sphere and then applying the bounce
action (a `SetRestitution`) twice to the same object. -/
def engineAfterTwoBounces : AICAD.Engine :=
  AICAD.applyPhysicsBounce bounceParams (AICAD.applyPhysicsBounce bounceParams engineAfterCreate)

/-- Engine after a zero-radius create request. -/
def engineAfterZeroRadius : AICAD.Engine :=
  AICAD.createObjectSafe zeroRadiusParams AICAD.engine0

/-! ## Supporting lemmas -/

/-- The stale-entry filter of `applyPhysics` keeps *every* entry: both
of its name tests compare a numeric material id with a string under
`===`, which is false for any value, so the conjunctions that would
mark an entry for removal never hold. -/
theorem keepEntry_eq_true (g : Material) (cm : ContactMaterial) :
    AICAD.keepEntry g cm = true := by
  simp [AICAD.keepEntry, jsNumEqString]

/-- Over exact rationals, `lockedZ || 0` is the identity. -/
theorem jsOrZero_eq (z : ℚ) : jsOrZero z = z := by
  unfold jsOrZero
  split <;> simp_all

theorem clampRange_lower (v : ℚ) : -10 ≤ AICAD.clampRange v :=
  le_max_left _ _

theorem clampRange_upper (v : ℚ) : AICAD.clampRange v ≤ 10 :=
  max_le (by norm_num) (min_le_left _ _)

/-- Every internal step the substep loop performs has the fixed size
`dt`, and there are at most `budget` of them. -/
theorem fixedSubstepLoop_sizes (budget : ℕ) (dt acc : ℚ) :
    (fixedSubstepLoop budget dt acc).1.length ≤ budget ∧
      ∀ s ∈ (fixedSubstepLoop budget dt acc).1, s = dt := by
  induction budget generalizing acc with
  | zero => simp [fixedSubstepLoop]
  | succ n ih =>
      unfold fixedSubstepLoop
      split
      · constructor
        · simpa using (ih (acc - dt)).1
        · intro s hs
          rcases (List.mem_cons.mp (by simpa using hs)) with h | h
          · exact h
          · exact (ih (acc - dt)).2 s h
      · simp

/-- Lemma: `createObject` on success appends exactly one contact-material
entry, and that entry pairs the fresh `object` material with the ground
material at restitution 0 and friction 0.4. -/
theorem createObject_contact (p : AICAD.CreateParams) (e e' : AICAD.Engine)
    (h : AICAD.createObject p e = .ok e') :
    ∃ cm : ContactMaterial,
      e'.world.contactMaterials = e.world.contactMaterials ++ [cm] ∧
      cm.restitution = 0 ∧ cm.friction = 2/5 ∧ cm.m1.name = "object" := by
  rcases hb : AICAD.buildShape p with err | shape
  · simp [AICAD.createObject, hb] at h
  · by_cases hce : p.clearExisting = true ∧ e.objects ≠ []
    · simp only [AICAD.createObject, hb, if_pos hce, Except.ok.injEq] at h
      subst h
      exact ⟨_, rfl, rfl, rfl, rfl⟩
    · simp only [AICAD.createObject, hb, if_neg hce, Except.ok.injEq] at h
      subst h
      exact ⟨_, rfl, rfl, rfl, rfl⟩

/-- Predicate: `defaultContactMaterial.restitution = 0` and every entry of the
contact-material table has restitution 0. -/
def allRestitutionZero (e : AICAD.Engine) : Prop :=
  e.world.defaultRestitution = 0 ∧
    ∀ cm ∈ e.world.contactMaterials, cm.restitution = 0

/-- One `createObjectSafe` preserves `allRestitutionZero`. -/
theorem createObjectSafe_restitution (p : AICAD.CreateParams) (e : AICAD.Engine)
    (h : allRestitutionZero e) :
    allRestitutionZero (AICAD.createObjectSafe p e) := by
  unfold AICAD.createObjectSafe
  rcases hc : AICAD.createObject p e with err | e'
  · exact h
  · obtain ⟨cm, hcm, hr, _, _⟩ := createObject_contact p e e' hc
    have hdef : e'.world.defaultRestitution = e.world.defaultRestitution := by
      unfold AICAD.createObject at hc
      rcases hb : AICAD.buildShape p with err | shape <;> rw [hb] at hc
      · exact absurd hc (by simp)
      · simp only [Except.ok.injEq] at hc
        rw [← hc]
        split <;> rfl
    refine ⟨by rw [hdef]; exact h.1, ?_⟩
    intro cm' hmem
    rw [hcm] at hmem
    rcases List.mem_append.mp hmem with hmem | hmem
    · exact h.2 cm' hmem
    · simp only [List.mem_singleton] at hmem
      rw [hmem, hr]

/-! ## Claims -/

/-- C1: the claim states that the contact-material table holds at most
one entry per unordered pair of material tags after any sequence of
bounce (`SetRestitution`) actions, because each replacement removes the
stale entries first.  The code violates this: the removal filter in
`applyPhysics` compares the numeric `materials[i].id` with the string
literals `object`/`bouncy` under `===`, which is always false, so no
entry is ever removed.  Evaluated at the failing input — one sphere,
then two bounce actions on it — the table holds *two* entries for the
unordered tag pair (`bouncy`, `ground`) (and still the stale
(`object`, `ground`) entry), where the claim requires at most one. -/
theorem c1_contact_table_duplicate_entries :
    engineAfterTwoBounces.world.contactMaterials.countP
        (fun cm => cm.pairsNames "bouncy" "ground") = 2 ∧
      engineAfterTwoBounces.world.contactMaterials.countP
        (fun cm => cm.pairsNames "object" "ground") = 1 := by
  constructor <;>
  · norm_num [engineAfterTwoBounces, engineAfterCreate, AICAD.createObjectSafe,
      AICAD.createObject, AICAD.buildShape, sphereCreateParams, bounceParams,
      AICAD.applyPhysicsBounce, AICAD.bounceOne, AICAD.engine0, AICAD.groundBody,
      AICAD.groundMaterial, AICAD.keepEntry, jsNumEqString, jsOrQ,
      ContactMaterial.pairsNames, Body.applyImpulse, Body.invMass, AICAD.initialImpulse,
      Vec3.add, Vec3.scale, Vec3.zero, List.countP, List.countP.go, List.filter]
    decide

/-- C2: an action whose target id is absent from the `bodies` registry
makes `executeAction` report the unknown target (the warn-and-return
branch) and leave the engine state — every body's pose, velocity,
material, and the contact-material table — completely unchanged.  This
covers every action type, `apply_impulse` in particular. -/
theorem c2_unknown_target_no_mutation (a : NLCAD.NLAction) (e : NLCAD.NLEngine)
    (h : e.bodies.lookup a.target = none) :
    NLCAD.executeAction a e = (.unknownTarget, e) := by
  unfold NLCAD.executeAction
  rw [h]

/-- A one-body engine used to witness C2. -/
def nlDemoBody : Body :=
  { mass := 1, position := ⟨0, 1/5, 0⟩, velocity := Vec3.zero
    quaternion := Quat.ident, btype := .dynamic, material := none
    shape := .sphere (3/50) }

def nlDemoEngine : NLCAD.NLEngine :=
  { bodies := [("o1", nlDemoBody)], contactMaterials := [], materialCounter := 0 }

/-- An `apply_impulse` aimed at an id that was never created. -/
def nlGhostImpulse : NLCAD.NLAction :=
  { atype := .apply_impulse, target := "ghost", value := none
    impulse_Ns := some 5, direction := some ⟨0, 1, 0⟩, force_N := none }

theorem c2_unknown_target_no_mutation_witness :
    NLCAD.executeAction nlGhostImpulse nlDemoEngine = (.unknownTarget, nlDemoEngine) :=
  c2_unknown_target_no_mutation nlGhostImpulse nlDemoEngine (by rfl)

/-- C3 counterexample: the claim states that a create request with a
dimension ≤ 0 fails with `InvalidGeometry` and inserts nothing.  At the
concrete input radius = 0 (a non-positive dimension), `createObject`
*succeeds* — `params.radius || 0.6` treats 0 as falsy and silently
substitutes the default — and inserts one object, whose physics shape is
a sphere of radius 0.6.  There is no `InvalidGeometry` error anywhere in
the code. -/
theorem c3_zero_radius_is_inserted :
    AICAD.createObject zeroRadiusParams AICAD.engine0 = .ok engineAfterZeroRadius ∧
      engineAfterZeroRadius.objects.length = 1 ∧
      (engineAfterZeroRadius.objects.headD
          { oid := "", mesh := ⟨Vec3.zero, Quat.ident⟩, body := nlDemoBody
            isDraggable := false, isDragging := false, dragOffset := Vec3.zero
            : AICAD.CADObject3D }).body.shape = .sphere (3/5) := by
  refine ⟨?_, ?_, ?_⟩ <;>
    norm_num [engineAfterZeroRadius, AICAD.createObjectSafe, AICAD.createObject,
      AICAD.buildShape, zeroRadiusParams, AICAD.engine0, jsOrQ]

/-- C3 as amended: creation performs no dimension validation and has no
`InvalidGeometry` error.  For a sphere request, the effective radius is
`params.radius || 0.6`; if it is negative the physics library's sphere
constructor throws (the only failure), otherwise — including radius 0,
which is silently replaced by the default — the object is inserted.  A
box request is never rejected, whatever its dimensions. -/
theorem c3_no_dimension_validation (p : AICAD.CreateParams) (e : AICAD.Engine) :
    (p.ctype = some "sphere" ∧ jsOrQ p.radius (3/5) < 0 →
        AICAD.createObject p e = .error .sphereRadiusNegative) ∧
    (p.ctype = some "sphere" ∧ ¬ jsOrQ p.radius (3/5) < 0 →
        ∃ e', AICAD.createObject p e = .ok e' ∧
          e'.objects.length =
            (if p.clearExisting = true ∧ e.objects ≠ [] then 0 else e.objects.length) + 1) ∧
    (p.ctype = some "box" →
        ∃ e', AICAD.createObject p e = .ok e' ∧
          e'.objects.length =
            (if p.clearExisting = true ∧ e.objects ≠ [] then 0 else e.objects.length) + 1) := by
  refine ⟨?_, ?_, ?_⟩
  · rintro ⟨hty, hneg⟩
    simp only [AICAD.createObject, AICAD.buildShape, hty, if_pos hneg]
  · rintro ⟨hty, hpos⟩
    have hb : AICAD.buildShape p = .ok (.sphere (jsOrQ p.radius (3/5))) := by
      simp only [AICAD.buildShape, hty, if_neg hpos]
    simp only [AICAD.createObject, hb]
    by_cases hce : p.clearExisting = true ∧ e.objects ≠ []
    · simp only [if_pos hce]
      exact ⟨_, rfl, by simp [AICAD.removeAllObjects]⟩
    · simp only [if_neg hce]
      exact ⟨_, rfl, by simp⟩
  · intro hty
    have hb : AICAD.buildShape p =
        .ok (.box (jsOrQ p.width (1/5) / 2) (jsOrQ p.height (1/5) / 2)
              (jsOrQ p.depth (1/5) / 2)) := by
      simp only [AICAD.buildShape, hty]
    simp only [AICAD.createObject, hb]
    by_cases hce : p.clearExisting = true ∧ e.objects ≠ []
    · simp only [if_pos hce]
      exact ⟨_, rfl, by simp [AICAD.removeAllObjects]⟩
    · simp only [if_neg hce]
      exact ⟨_, rfl, by simp⟩

theorem c3_no_dimension_validation_witness :
    AICAD.createObject negRadiusParams AICAD.engine0 = .error .sphereRadiusNegative ∧
      ∃ e', AICAD.createObject zeroRadiusParams AICAD.engine0 = .ok e' ∧
        e'.objects.length =
          (if zeroRadiusParams.clearExisting = true ∧ AICAD.engine0.objects ≠ []
            then 0 else AICAD.engine0.objects.length) + 1 :=
  ⟨(c3_no_dimension_validation negRadiusParams AICAD.engine0).1
      ⟨rfl, by norm_num [negRadiusParams, jsOrQ]⟩,
   (c3_no_dimension_validation zeroRadiusParams AICAD.engine0).2.1
      ⟨rfl, by norm_num [zeroRadiusParams, jsOrQ]⟩⟩

/-- Projection lemma: the internal-step sizes of a fixed-substep
`World.step` call are those of the substep loop. -/
theorem cannonStepFixed_fst (dt t : ℚ) (m : ℕ) (acc : ℚ) :
    (cannonStepFixed dt t m acc).1 = (fixedSubstepLoop m dt (acc + t)).1 := by
  unfold cannonStepFixed
  rcases h : fixedSubstepLoop m dt (acc + t) with ⟨sizes, a⟩
  simp [h]

/-- C4 counterexample: the claim (whose cited sources include the
`startAnimation` of part_003) states the simulation loop advances the
physics world only in increments of 1/60 s.  The part_003 loop calls
`world.step(deltaTime)` — the single-argument, non-accumulating mode —
so at a frame delta of 0.1 s it advances the world in one internal step
of size 0.1 s, which is not the fixed step 1/60 s. -/
theorem c4_nl_loop_steps_by_raw_delta :
    NLCAD.frameSubsteps (1/10) = [1/10] ∧ ¬ ((1:ℚ)/10 = 1/60) :=
  ⟨rfl, by norm_num⟩

/-- C4 as amended: the *AICADEngine* loop (`world.step(1/60, delta, 3)`)
advances the physics world only in fixed-size increments of 1/60 s and
performs at most 3 such substeps per frame, for every frame delta and
accumulator state; the part_003 loop instead performs a single
variable-size step per frame. -/
theorem c4_fixed_timestep_bounded_substeps (delta acc : ℚ) :
    (AICAD.frameSubsteps delta acc).1.length ≤ 3 ∧
      ∀ s ∈ (AICAD.frameSubsteps delta acc).1, s = 1/60 := by
  have h := fixedSubstepLoop_sizes 3 (1/60) (acc + delta)
  have hfst : (AICAD.frameSubsteps delta acc).1 =
      (fixedSubstepLoop 3 (1/60) (acc + delta)).1 :=
    cannonStepFixed_fst (1/60) delta 3 acc
  rw [hfst]
  exact h

theorem c4_fixed_timestep_bounded_substeps_witness :
    (AICAD.frameSubsteps (1/10) 0).1.length ≤ 3 ∧ ((1:ℚ)/60) = 1/60 :=
  ⟨(c4_fixed_timestep_bounded_substeps (1/10) 0).1,
   (c4_fixed_timestep_bounded_substeps (1/10) 0).2 (1/60)
     (by norm_num [AICAD.frameSubsteps, cannonStepFixed, fixedSubstepLoop, ratMod])⟩

/-- C5: a sphere built by the natural-language parser from a radius
carries `mass_kg = density_kg_m3 · (4/3)·π·r³` — the mass the second
engine's `createObject` then hands to the physics body verbatim. -/
theorem c5_sphere_mass_is_density_times_volume (r : ℝ) :
    nlBodyMass (parseSphere r) =
      (parseSphere r).density_kg_m3 * ((4/3) * Real.pi * r ^ 3) ∧
    (parseSphere r).mass_kg =
      (parseSphere r).density_kg_m3 * (parseSphere r).volume_m3 := by
  constructor <;> simp [nlBodyMass, parseSphere, jsMathPI]

/-- C6: the per-frame synchronisation applies `syncObj` to every
registered object; for an object not being dragged it copies the physics
body's position and orientation onto the mesh, an object being dragged
is left exactly as it was, and the body itself is never modified by the
sync pass. -/
theorem c6_dynamic_objects_synced_from_physics
    (objs : List AICAD.CADObject3D) (o : AICAD.CADObject3D) :
    AICAD.syncPass objs = objs.map AICAD.syncObj ∧
    (AICAD.syncObj o).body = o.body ∧
    (o.isDragging = false →
        (AICAD.syncObj o).mesh.position = o.body.position ∧
        (AICAD.syncObj o).mesh.quaternion = o.body.quaternion) ∧
    (o.isDragging = true → AICAD.syncObj o = o) := by
  refine ⟨rfl, ?_, ?_, ?_⟩
  · unfold AICAD.syncObj
    split <;> rfl
  · intro h
    simp [AICAD.syncObj, h]
  · intro h
    simp [AICAD.syncObj, h]

/-- A non-dragged object whose mesh pose differs from its body pose,
used to witness C6. -/
def c6DemoObject : AICAD.CADObject3D :=
  { oid := "o1"
    mesh := { position := ⟨7, 7, 7⟩, quaternion := Quat.ident }
    body := { mass := 1, position := ⟨0, 1/5, 0⟩, velocity := Vec3.zero
              quaternion := Quat.ident, btype := .dynamic, material := none
              shape := .sphere (3/50) }
    isDraggable := true
    isDragging := false
    dragOffset := Vec3.zero }

theorem c6_dynamic_objects_synced_from_physics_witness :
    (AICAD.syncObj c6DemoObject).mesh.position = c6DemoObject.body.position ∧
      (AICAD.syncObj c6DemoObject).mesh.quaternion = c6DemoObject.body.quaternion :=
  (c6_dynamic_objects_synced_from_physics [] c6DemoObject).2.2.1 rfl

/-- C7: the keep-bouncing behavior is a per-tick poll.  On a tick where
the body sits below the ground threshold (-0.35) with vertical speed
below the threshold (0.5), the re-applied impulse is the vertical
component of the original bounce impulse (`initial_velocity?.y || 5`):
a dynamic body's velocity gains `impulse · invMass` and its position is
untouched.  On any other tick the behavior changes nothing. -/
theorem c7_bounce_behavior_is_per_tick_poll (p : AICAD.BounceParams) (b : Body) :
    (¬ (b.position.y < -(7/20) ∧ |b.velocity.y| < 1/2) →
        AICAD.bounceAnimationTick p b = b) ∧
    ((b.position.y < -(7/20) ∧ |b.velocity.y| < 1/2) →
        (Vec3.mk 0 (jsOrQ p.ivy 5) 0).y = (AICAD.initialImpulse p).y ∧
        (b.btype = .dynamic →
          (AICAD.bounceAnimationTick p b).velocity =
            b.velocity.add ((Vec3.mk 0 (jsOrQ p.ivy 5) 0).scale b.invMass) ∧
          (AICAD.bounceAnimationTick p b).position = b.position)) := by
  constructor
  · intro h
    unfold AICAD.bounceAnimationTick
    rw [if_neg h]
  · intro h
    refine ⟨rfl, ?_⟩
    intro hd
    have hstep : AICAD.bounceAnimationTick p b =
        b.applyImpulse ⟨0, jsOrQ p.ivy 5, 0⟩ := by
      unfold AICAD.bounceAnimationTick
      rw [if_pos h]
    rw [hstep]
    unfold Body.applyImpulse
    rw [hd]
    exact ⟨rfl, rfl⟩

/-- A slow body resting just below the ground threshold, used to
witness C7. -/
def c7DemoBody : Body :=
  { mass := 1, position := ⟨0, -2/5, 0⟩, velocity := ⟨0, 1/10, 0⟩
    quaternion := Quat.ident, btype := .dynamic, material := none
    shape := .sphere (3/50) }

theorem c7_bounce_behavior_is_per_tick_poll_witness :
    (AICAD.bounceAnimationTick bounceParams c7DemoBody).velocity =
        c7DemoBody.velocity.add
          ((Vec3.mk 0 (jsOrQ bounceParams.ivy 5) 0).scale c7DemoBody.invMass) ∧
      (AICAD.bounceAnimationTick bounceParams c7DemoBody).position = c7DemoBody.position :=
  ((c7_bounce_behavior_is_per_tick_poll bounceParams c7DemoBody).2
      (by constructor <;> norm_num [c7DemoBody, abs_lt])).2 rfl

/-- One pointer-move preserves the locked depth of the dragged object:
the hit branch pins `z` to the locked value, the miss branch changes
nothing. -/
theorem onMouseMoveDrag_depth (h : AICAD.RayHit) (z : ℚ) (o : AICAD.CADObject3D)
    (hm : o.mesh.position.z = z) (hb : o.body.position.z = z) :
    (AICAD.onMouseMoveDrag h z o).mesh.position.z = z ∧
      (AICAD.onMouseMoveDrag h z o).body.position.z = z := by
  cases h with
  | miss => exact ⟨hm, hb⟩
  | hit ip => exact ⟨jsOrZero_eq z, jsOrZero_eq z⟩

/-- C8: throughout a drag — any sequence of pointer-moves, each either
hitting or missing the drag plane — the dragged object's depth
component stays equal to the depth locked at pointer-down, in both the
visual and the physics pose.  Moreover, every plane hit writes the same
clamped target into both poses: its `x` and `y` are clamped to
`[-10, 10]` and its `z` is the locked depth. -/
theorem c8_drag_locks_depth_and_clamps (z : ℚ) (events : List AICAD.RayHit)
    (o : AICAD.CADObject3D)
    (hm : o.mesh.position.z = z) (hb : o.body.position.z = z) :
    ((AICAD.dragTrace z events o).mesh.position.z = z ∧
     (AICAD.dragTrace z events o).body.position.z = z) ∧
    ∀ (ip : Vec3) (q : AICAD.CADObject3D),
      (AICAD.onMouseMoveDrag (.hit ip) z q).mesh.position
          = AICAD.dragMoveTarget ip q.dragOffset z ∧
      (AICAD.onMouseMoveDrag (.hit ip) z q).body.position
          = AICAD.dragMoveTarget ip q.dragOffset z ∧
      (AICAD.dragMoveTarget ip q.dragOffset z).z = z ∧
      -10 ≤ (AICAD.dragMoveTarget ip q.dragOffset z).x ∧
      (AICAD.dragMoveTarget ip q.dragOffset z).x ≤ 10 ∧
      -10 ≤ (AICAD.dragMoveTarget ip q.dragOffset z).y ∧
      (AICAD.dragMoveTarget ip q.dragOffset z).y ≤ 10 := by
  constructor
  · induction events generalizing o with
    | nil => exact ⟨hm, hb⟩
    | cons e es ih =>
        have h1 := onMouseMoveDrag_depth e z o hm hb
        exact ih (AICAD.onMouseMoveDrag e z o) h1.1 h1.2
  · intro ip q
    exact ⟨rfl, rfl, jsOrZero_eq z,
      clampRange_lower _, clampRange_upper _, clampRange_lower _, clampRange_upper _⟩

/-- The object being dragged in the C8 witness scenario: both poses at
depth 1/4 when the drag locks. -/
def c8DemoObject : AICAD.CADObject3D :=
  { oid := "o1"
    mesh := { position := ⟨0, 0, 1/4⟩, quaternion := Quat.ident }
    body := { mass := 1, position := ⟨0, 0, 1/4⟩, velocity := Vec3.zero
              quaternion := Quat.ident, btype := .kinematic, material := none
              shape := .sphere (3/50) }
    isDraggable := true
    isDragging := true
    dragOffset := ⟨1/100, 0, 0⟩ }

theorem c8_drag_locks_depth_and_clamps_witness :
    (AICAD.dragTrace (1/4) [AICAD.RayHit.hit ⟨20, -20, 9⟩, AICAD.RayHit.miss]
        c8DemoObject).mesh.position.z = 1/4 ∧
      (AICAD.dragTrace (1/4) [AICAD.RayHit.hit ⟨20, -20, 9⟩, AICAD.RayHit.miss]
        c8DemoObject).body.position.z = 1/4 :=
  (c8_drag_locks_depth_and_clamps (1/4)
      [AICAD.RayHit.hit ⟨20, -20, 9⟩, AICAD.RayHit.miss] c8DemoObject rfl rfl).1

/-- C9: releasing the pointer over a dragged object makes the physics
body `DYNAMIC` again and clears the dragging flag, while leaving the
body at its last kinematic pose and velocity; on the very next physics
step the body, now dynamic, has gravity integrated into its velocity
(`velocity += g·dt`). -/
theorem c9_mouse_up_restores_dynamic (o : AICAD.CADObject3D) (g : Vec3) (dt : ℚ)
    (hdrag : o.isDragging = true) (hkin : o.body.btype = .kinematic) :
    (AICAD.onMouseUpObject o).body.btype = .dynamic ∧
    (AICAD.onMouseUpObject o).isDragging = false ∧
    (AICAD.onMouseUpObject o).body.position = o.body.position ∧
    (AICAD.onMouseUpObject o).body.velocity = o.body.velocity ∧
    (AICAD.gravityStep g dt (AICAD.onMouseUpObject o).body).velocity
        = (AICAD.onMouseUpObject o).body.velocity.add (g.scale dt) := by
  exact ⟨rfl, rfl, rfl, rfl, rfl⟩

/-- A kinematic object mid-drag, used to witness C9. -/
def c9DemoObject : AICAD.CADObject3D :=
  { oid := "o2"
    mesh := { position := ⟨1, 2, 1/4⟩, quaternion := Quat.ident }
    body := { mass := 1, position := ⟨1, 2, 1/4⟩, velocity := Vec3.zero
              quaternion := Quat.ident, btype := .kinematic, material := none
              shape := .sphere (3/50) }
    isDraggable := true
    isDragging := true
    dragOffset := Vec3.zero }

theorem c9_mouse_up_restores_dynamic_witness :
    (AICAD.onMouseUpObject c9DemoObject).body.btype = .dynamic ∧
    (AICAD.onMouseUpObject c9DemoObject).isDragging = false ∧
    (AICAD.onMouseUpObject c9DemoObject).body.position = c9DemoObject.body.position ∧
    (AICAD.onMouseUpObject c9DemoObject).body.velocity = c9DemoObject.body.velocity ∧
    (AICAD.gravityStep ⟨0, -491/50, 0⟩ (1/60)
        (AICAD.onMouseUpObject c9DemoObject).body).velocity
      = (AICAD.onMouseUpObject c9DemoObject).body.velocity.add
          ((Vec3.mk 0 (-491/50) 0).scale (1/60)) :=
  c9_mouse_up_restores_dynamic c9DemoObject ⟨0, -491/50, 0⟩ (1/60) rfl rfl

/-- Prepending create commands preserves the all-restitution-zero
invariant of the contact-material table. -/
theorem foldl_createObjectSafe_restitution (ps : List AICAD.CreateParams) :
    ∀ e, allRestitutionZero e →
      allRestitutionZero (ps.foldl (fun e p => AICAD.createObjectSafe p e) e) := by
  induction ps with
  | nil => exact fun _ h => h
  | cons p ps ih => exact fun e h => ih _ (createObjectSafe_restitution p e h)

/-- C10: starting from the constructor state — whose default contact
material has restitution 0 — any sequence of object creations leaves
the world with default restitution 0 and every contact-material entry at
restitution 0; and each successful creation registers exactly one new
entry, pairing the object's fresh `object`-tagged material (with the
ground material) at restitution 0 and friction 0.4. -/
theorem c10_new_objects_have_zero_restitution (ps : List AICAD.CreateParams) :
    allRestitutionZero (ps.foldl (fun e p => AICAD.createObjectSafe p e) AICAD.engine0) ∧
    ∀ (p : AICAD.CreateParams) (e e' : AICAD.Engine),
      AICAD.createObject p e = .ok e' →
        ∃ cm : ContactMaterial,
          e'.world.contactMaterials = e.world.contactMaterials ++ [cm] ∧
          cm.restitution = 0 ∧ cm.friction = 2/5 ∧ cm.m1.name = "object" :=
  ⟨foldl_createObjectSafe_restitution ps AICAD.engine0 ⟨rfl, by simp [AICAD.engine0]⟩,
   fun p e e' h => createObject_contact p e e' h⟩

theorem c10_new_objects_have_zero_restitution_witness :
    allRestitutionZero
        ([sphereCreateParams].foldl (fun e p => AICAD.createObjectSafe p e) AICAD.engine0) ∧
      ∃ cm : ContactMaterial,
        engineAfterCreate.world.contactMaterials
            = AICAD.engine0.world.contactMaterials ++ [cm] ∧
          cm.restitution = 0 ∧ cm.friction = 2/5 ∧ cm.m1.name = "object" :=
  ⟨(c10_new_objects_have_zero_restitution [sphereCreateParams]).1,
   (c10_new_objects_have_zero_restitution []).2 sphereCreateParams AICAD.engine0
      engineAfterCreate
      (by norm_num [engineAfterCreate, AICAD.createObjectSafe, AICAD.createObject,
        AICAD.buildShape, sphereCreateParams, jsOrQ])⟩
